import Mathlib

/-
Verification of the operation-batching and result-finalization core of
include/grpc++/impl/call.h: the seven call-operation traits, the
CallOpSet batch (FillOps and FinalizeResult), and SneakyCallOpSet.

Modelling conventions:
- Pointers are modelled as Option values; a null pointer is none and a
  pointer to caller memory carries the pointed-to value inline.
  Writing through a null pointer is undefined behaviour; the finalize
  step therefore returns an Option, with none meaning a null write.
- The grpc_op array passed to FillOps is modelled as the list of
  descriptors written so far paired with the running nops counter;
  every write in the source is `ops[(*nops)++] = ...`, an append.
- Releasing a native buffer (grpc_byte_buffer_destroy) is modelled by
  clearing the Option field holding it.
- The external message codec (SerializationTraits) is passed to the
  finalize functions as an explicit function argument.
-/

namespace Grpc

/-- Metadata is a multimap of (key, value) entries; duplicate keys are
permitted and ordering is irrelevant, so a list of pairs. -/
abbrev Metadata := List (String × String)

/-- A native byte buffer, as an abstract sequence of bytes. -/
abbrev ByteBuffer := List Nat

/-- Modelled from the spec: the enumerated outcome of a Status.  The
Status class lives in grpc++/status.h, outside src/; only the OK /
non-OK distinction matters here.  The zero value is OK, matching the
native grpc_status_code enum. -/
inductive StatusCode where
  | OK
  | CANCELLED
  | UNKNOWN
  | INVALID_ARGUMENT
  | DEADLINE_EXCEEDED
  | INTERNAL
  deriving DecidableEq

/-- Modelled from the spec: Status is a code plus a human-readable
detail string (grpc++/status.h is outside src/). -/
structure Status where
  code : StatusCode
  details : String
  deriving DecidableEq

/-- Status.IsOk: the outcome is the OK code. -/
def Status.IsOk (s : Status) : Bool := decide (s.code = StatusCode.OK)

/-- A completion tag (a void pointer in the source): either the batch
itself (the default, `return_tag_(this)`) or a caller-supplied key. -/
inductive Tag where
  | selfTag
  | user (n : Nat)
  deriving DecidableEq

/-- One native grpc_op descriptor, carrying its op kind and the data
fields the source fills in for that kind. -/
inductive GrpcOp where
  | sendInitialMetadataOp (count : Nat) (metadata : Metadata)
  | sendMessageOp (send_buf : ByteBuffer)
  | recvMessageOp
  | sendCloseFromClientOp
  | sendStatusFromServerOp (trailing_metadata_count : Nat) (trailing_metadata : Metadata)
      (status : StatusCode) (status_details : Option String)
  | recvInitialMetadataOp
  | recvStatusOnClientOp
  deriving DecidableEq

/-- Modelled from the spec: the metadata codec toNativeArray
(FillMetadataArray is declared in call.h but defined outside src/).
It converts the entries of a metadata multimap into a native entry
array, kept here as the same list of pairs. -/
def FillMetadataArray (metadata : Metadata) : Metadata := metadata

/-- Modelled from the spec: the metadata codec fromNativeArray
(FillMetadataMap is declared in call.h but defined outside src/).
It inserts every native entry into the destination map and then
destroys and re-initializes the native array.  The destination is a
pointer; inserting through a null destination is a null dereference
(none) unless the array holds no entries, in which case the insertion
loop never runs. -/
def FillMetadataMap (arr : Metadata) (metadata : Option Metadata) :
    Option (Metadata × Option Metadata) :=
  match metadata with
  | some m => some ([], some (m ++ arr))
  | none => if arr.isEmpty then some ([], none) else none

/-- Modelled from the spec: the client-side call context
(grpc++/client_context.h is outside src/), reduced to the three fields
call.h touches. -/
structure ClientContext where
  initial_metadata_received_ : Bool
  recv_initial_metadata_ : Metadata
  trailing_metadata_ : Metadata

/-- State of CallOpSendInitialMetadata. -/
structure CallOpSendInitialMetadata where
  send_ : Bool
  initial_metadata_count_ : Nat
  initial_metadata_ : Metadata

/-- Constructor: CallOpSendInitialMetadata() : send_(false).  The
count and array fields are uninitialized in the source and modelled
with defaults; no path reads them while unarmed. -/
def CallOpSendInitialMetadata.init : CallOpSendInitialMetadata :=
  { send_ := false, initial_metadata_count_ := 0, initial_metadata_ := [] }

/-- Arming: stores the entry count and the converted native array and
sets send_. -/
def CallOpSendInitialMetadata.SendInitialMetadata (metadata : Metadata)
    (_s : CallOpSendInitialMetadata) : CallOpSendInitialMetadata :=
  { send_ := true, initial_metadata_count_ := metadata.length,
    initial_metadata_ := FillMetadataArray metadata }

/-- AddOp: returns unless send_; otherwise appends one
GRPC_OP_SEND_INITIAL_METADATA descriptor and increments nops. -/
def CallOpSendInitialMetadata.AddOp (s : CallOpSendInitialMetadata)
    (acc : List GrpcOp × Nat) : List GrpcOp × Nat :=
  if !s.send_ then acc
  else (acc.1 ++ [GrpcOp.sendInitialMetadataOp s.initial_metadata_count_ s.initial_metadata_],
        acc.2 + 1)

/-- State of CallOpSendMessage: the serialized buffer, null until a
successful SendMessage. -/
structure CallOpSendMessage where
  send_buf_ : Option ByteBuffer

/-- Constructor: CallOpSendMessage() : send_buf_(nullptr). -/
def CallOpSendMessage.init : CallOpSendMessage := { send_buf_ := none }

/-- Arming: SerializationTraits::Serialize writes the buffer and
reports success; the serializer result is passed in, none meaning
serialization failure (buffer left as it was, false returned). -/
def CallOpSendMessage.SendMessage (serialized : Option ByteBuffer)
    (s : CallOpSendMessage) : CallOpSendMessage × Bool :=
  match serialized with
  | some b => ({ send_buf_ := some b }, true)
  | none => (s, false)

/-- AddOp: returns if send_buf_ is null; otherwise appends one
GRPC_OP_SEND_MESSAGE descriptor. -/
def CallOpSendMessage.AddOp (s : CallOpSendMessage)
    (acc : List GrpcOp × Nat) : List GrpcOp × Nat :=
  match s.send_buf_ with
  | none => acc
  | some b => (acc.1 ++ [GrpcOp.sendMessageOp b], acc.2 + 1)

/-- FinishOp: grpc_byte_buffer_destroy(send_buf_) unconditionally;
destroying a null buffer is a no-op, so the field is simply cleared. -/
def CallOpSendMessage.FinishOp (_s : CallOpSendMessage) (_tag : Tag)
    (status : Bool) (_max_message_size : Int) : CallOpSendMessage × Bool :=
  ({ send_buf_ := none }, status)

/-- State of the typed CallOpRecvMessage template over message type R.
message_ is the caller-supplied destination pointer (pointed-to value
inline); recv_buf_ is the buffer the transport delivered. -/
structure CallOpRecvMessage (R : Type) where
  got_message : Bool
  message_ : Option R
  recv_buf_ : Option ByteBuffer

/-- Constructor: got_message(false), message_(nullptr); recv_buf_ is
uninitialized in the source and modelled as none. -/
def CallOpRecvMessage.init (R : Type) : CallOpRecvMessage R :=
  { got_message := false, message_ := none, recv_buf_ := none }

/-- Arming: RecvMessage stores the destination pointer. -/
def CallOpRecvMessage.RecvMessage {R : Type} (message : R)
    (s : CallOpRecvMessage R) : CallOpRecvMessage R :=
  { s with message_ := some message }

/-- AddOp: returns if not armed; otherwise appends one
GRPC_OP_RECV_MESSAGE descriptor (registering recv_buf_). -/
def CallOpRecvMessage.AddOp {R : Type} (s : CallOpRecvMessage R)
    (acc : List GrpcOp × Nat) : List GrpcOp × Nat :=
  match s.message_ with
  | none => acc
  | some _ => (acc.1 ++ [GrpcOp.recvMessageOp], acc.2 + 1)

/-- FinishOp of the typed receive trait, lines 135-151 of call.h.
Deserialize is SerializationTraits::Deserialize: it returns a Status
and the value it wrote through the destination pointer. -/
def CallOpRecvMessage.FinishOp {R : Type}
    (Deserialize : ByteBuffer → Int → Status × R) (s : CallOpRecvMessage R)
    (_tag : Tag) (status : Bool) (max_message_size : Int) :
    CallOpRecvMessage R × Bool :=
  match s.message_ with
  | none => (s, status)
  | some _ =>
    match s.recv_buf_ with
    | some buf =>
      if status then
        let r := Deserialize buf max_message_size
        ({ s with got_message := true, message_ := some r.2 }, r.1.IsOk)
      else
        ({ s with got_message := false, recv_buf_ := none }, status)
    | none => ({ s with got_message := false }, false)

/-- State of the type-erased CallOpGenericRecvMessage: the captured
decode closure (null until armed) and the delivered buffer. -/
structure CallOpGenericRecvMessage where
  got_message : Bool
  deserialize_ : Option (ByteBuffer → Int → Status)
  recv_buf_ : Option ByteBuffer

/-- Constructor: got_message(false); deserialize_ empty; recv_buf_
uninitialized in the source and modelled as none. -/
def CallOpGenericRecvMessage.init : CallOpGenericRecvMessage :=
  { got_message := false, deserialize_ := none, recv_buf_ := none }

/-- Arming: RecvMessage captures the typed decode closure. -/
def CallOpGenericRecvMessage.RecvMessage (f : ByteBuffer → Int → Status)
    (s : CallOpGenericRecvMessage) : CallOpGenericRecvMessage :=
  { s with deserialize_ := some f }

/-- AddOp: returns if no closure was captured; otherwise appends one
GRPC_OP_RECV_MESSAGE descriptor. -/
def CallOpGenericRecvMessage.AddOp (s : CallOpGenericRecvMessage)
    (acc : List GrpcOp × Nat) : List GrpcOp × Nat :=
  match s.deserialize_ with
  | none => acc
  | some _ => (acc.1 ++ [GrpcOp.recvMessageOp], acc.2 + 1)

/-- FinishOp of the type-erased receive trait, lines 181-195 of
call.h. -/
def CallOpGenericRecvMessage.FinishOp (s : CallOpGenericRecvMessage)
    (_tag : Tag) (status : Bool) (max_message_size : Int) :
    CallOpGenericRecvMessage × Bool :=
  match s.deserialize_ with
  | none => (s, status)
  | some f =>
    match s.recv_buf_ with
    | some buf =>
      if status then
        ({ s with got_message := true }, (f buf max_message_size).IsOk)
      else
        ({ s with got_message := false, recv_buf_ := none }, status)
    | none => ({ s with got_message := false }, false)

/-- State of CallOpClientSendClose. -/
structure CallOpClientSendClose where
  send_ : Bool

/-- Constructor: CallOpClientSendClose() : send_(false). -/
def CallOpClientSendClose.init : CallOpClientSendClose := { send_ := false }

/-- Arming: ClientSendClose sets send_. -/
def CallOpClientSendClose.ClientSendClose (_s : CallOpClientSendClose) :
    CallOpClientSendClose :=
  { send_ := true }

/-- AddOp: returns unless send_; otherwise appends one
GRPC_OP_SEND_CLOSE_FROM_CLIENT descriptor. -/
def CallOpClientSendClose.AddOp (s : CallOpClientSendClose)
    (acc : List GrpcOp × Nat) : List GrpcOp × Nat :=
  if !s.send_ then acc
  else (acc.1 ++ [GrpcOp.sendCloseFromClientOp], acc.2 + 1)

/-- State of CallOpServerSendStatus. -/
structure CallOpServerSendStatus where
  send_status_available_ : Bool
  send_status_code_ : StatusCode
  send_status_details_ : String
  trailing_metadata_count_ : Nat
  trailing_metadata_ : Metadata

/-- Constructor: CallOpServerSendStatus() : send_status_available_(false).
The code and count fields are uninitialized in the source and modelled
with defaults; the details string is default-constructed empty. -/
def CallOpServerSendStatus.init : CallOpServerSendStatus :=
  { send_status_available_ := false, send_status_code_ := StatusCode.OK,
    send_status_details_ := "", trailing_metadata_count_ := 0,
    trailing_metadata_ := [] }

/-- Arming: ServerSendStatus stores the trailing metadata, the status
code and the detail string and sets send_status_available_. -/
def CallOpServerSendStatus.ServerSendStatus (trailing_metadata : Metadata)
    (status : Status) (_s : CallOpServerSendStatus) : CallOpServerSendStatus :=
  { trailing_metadata_count_ := trailing_metadata.length,
    trailing_metadata_ := FillMetadataArray trailing_metadata,
    send_status_available_ := true,
    send_status_code_ := status.code,
    send_status_details_ := status.details }

/-- AddOp of CallOpServerSendStatus, lines 236-245 of call.h: it
appends one GRPC_OP_SEND_STATUS_FROM_SERVER descriptor with NO guard
on send_status_available_ (that flag is set by arming but never read).
The detail pointer is null when the detail string is empty. -/
def CallOpServerSendStatus.AddOp (s : CallOpServerSendStatus)
    (acc : List GrpcOp × Nat) : List GrpcOp × Nat :=
  (acc.1 ++ [GrpcOp.sendStatusFromServerOp s.trailing_metadata_count_ s.trailing_metadata_
      s.send_status_code_
      (if s.send_status_details_.isEmpty then none else some s.send_status_details_)],
   acc.2 + 1)

/-- State of CallOpRecvInitialMetadata: the destination pointer into
the ClientContext and the native scratch array. -/
structure CallOpRecvInitialMetadata where
  recv_initial_metadata_ : Option Metadata
  recv_initial_metadata_arr_ : Metadata

/-- Constructor: null destination, scratch array zeroed by memset. -/
def CallOpRecvInitialMetadata.init : CallOpRecvInitialMetadata :=
  { recv_initial_metadata_ := none, recv_initial_metadata_arr_ := [] }

/-- Arming, lines 265-268 of call.h: immediately marks the context as
having received initial metadata and stores the destination pointer. -/
def CallOpRecvInitialMetadata.RecvInitialMetadata (context : ClientContext)
    (s : CallOpRecvInitialMetadata) : ClientContext × CallOpRecvInitialMetadata :=
  ({ context with initial_metadata_received_ := true },
   { s with recv_initial_metadata_ := some context.recv_initial_metadata_ })

/-- AddOp: returns if the destination pointer is null; otherwise
appends one GRPC_OP_RECV_INITIAL_METADATA descriptor. -/
def CallOpRecvInitialMetadata.AddOp (s : CallOpRecvInitialMetadata)
    (acc : List GrpcOp × Nat) : List GrpcOp × Nat :=
  match s.recv_initial_metadata_ with
  | none => acc
  | some _ => (acc.1 ++ [GrpcOp.recvInitialMetadataOp], acc.2 + 1)

/-- FinishOp, lines 277-279 of call.h: unconditionally runs
FillMetadataMap from the scratch array into the destination. -/
def CallOpRecvInitialMetadata.FinishOp (s : CallOpRecvInitialMetadata)
    (_tag : Tag) (status : Bool) (_max_message_size : Int) :
    Option (CallOpRecvInitialMetadata × Bool) :=
  match FillMetadataMap s.recv_initial_metadata_arr_ s.recv_initial_metadata_ with
  | none => none
  | some r =>
      some ({ recv_initial_metadata_ := r.2, recv_initial_metadata_arr_ := r.1 }, status)

/-- State of CallOpClientRecvStatus: destination pointers for the
trailing metadata and the Status, plus native scratch fields. -/
structure CallOpClientRecvStatus where
  recv_trailing_metadata_ : Option Metadata
  recv_status_ : Option Status
  recv_trailing_metadata_arr_ : Metadata
  status_code_ : StatusCode
  status_details_ : Option String
  status_details_capacity_ : Nat

/-- Constructor: memset(this, 0, sizeof(*this)): null pointers, empty
scratch array, status code 0 (OK), null detail pointer. -/
def CallOpClientRecvStatus.init : CallOpClientRecvStatus :=
  { recv_trailing_metadata_ := none, recv_status_ := none,
    recv_trailing_metadata_arr_ := [], status_code_ := StatusCode.OK,
    status_details_ := none, status_details_capacity_ := 0 }

/-- Arming: ClientRecvStatus stores the pointer to the context
trailing-metadata map and the pointer to the caller Status object. -/
def CallOpClientRecvStatus.ClientRecvStatus (context : ClientContext)
    (status : Status) (s : CallOpClientRecvStatus) : CallOpClientRecvStatus :=
  { s with recv_trailing_metadata_ := some context.trailing_metadata_,
           recv_status_ := some status }

/-- AddOp: returns if recv_status_ is null; otherwise appends one
GRPC_OP_RECV_STATUS_ON_CLIENT descriptor registering the scratch
fields. -/
def CallOpClientRecvStatus.AddOp (s : CallOpClientRecvStatus)
    (acc : List GrpcOp × Nat) : List GrpcOp × Nat :=
  match s.recv_status_ with
  | none => acc
  | some _ => (acc.1 ++ [GrpcOp.recvStatusOnClientOp], acc.2 + 1)

/-- FinishOp, lines 308-313 of call.h: unconditionally fills the
trailing-metadata destination from the scratch array and then writes
through recv_status_ a Status built from the native code and detail
string (empty when the detail pointer is null).  Writing through a
null recv_status_ is a null dereference (none). -/
def CallOpClientRecvStatus.FinishOp (s : CallOpClientRecvStatus)
    (_tag : Tag) (status : Bool) (_max_message_size : Int) :
    Option (CallOpClientRecvStatus × Bool) :=
  match FillMetadataMap s.recv_trailing_metadata_arr_ s.recv_trailing_metadata_ with
  | none => none
  | some r =>
    match s.recv_status_ with
    | none => none
    | some _ =>
        some ({ s with recv_trailing_metadata_ := r.2,
                       recv_trailing_metadata_arr_ := r.1,
                       recv_status_ := some (Status.mk s.status_code_
                         (s.status_details_.getD "")) }, status)

/-- One slot of a CallOpSet: any of the seven operation traits, or the
CallNoOp default filling an unused slot. -/
inductive CallOp (R : Type) where
  | noOp
  | sendInitialMetadata (s : CallOpSendInitialMetadata)
  | sendMessage (s : CallOpSendMessage)
  | recvMessage (s : CallOpRecvMessage R)
  | genericRecvMessage (s : CallOpGenericRecvMessage)
  | clientSendClose (s : CallOpClientSendClose)
  | serverSendStatus (s : CallOpServerSendStatus)
  | recvInitialMetadata (s : CallOpRecvInitialMetadata)
  | clientRecvStatus (s : CallOpClientRecvStatus)

/-- Slot-level AddOp dispatch: each trait appends its native
descriptor per its own AddOp; CallNoOp::AddOp is empty. -/
def CallOp.AddOp {R : Type} : CallOp R → List GrpcOp × Nat → List GrpcOp × Nat
  | .noOp, acc => acc
  | .sendInitialMetadata s, acc => s.AddOp acc
  | .sendMessage s, acc => s.AddOp acc
  | .recvMessage s, acc => s.AddOp acc
  | .genericRecvMessage s, acc => s.AddOp acc
  | .clientSendClose s, acc => s.AddOp acc
  | .serverSendStatus s, acc => s.AddOp acc
  | .recvInitialMetadata s, acc => s.AddOp acc
  | .clientRecvStatus s, acc => s.AddOp acc

/-- Slot-level FinishOp dispatch.  Traits whose FinishOp body is
"nothing to do" leave state and status unchanged; the two traits whose
FinishOp can write through a null pointer return none in that case. -/
def CallOp.FinishOp {R : Type} (Deserialize : ByteBuffer → Int → Status × R) :
    CallOp R → Tag → Bool → Int → Option (CallOp R × Bool)
  | .noOp, _, status, _ => some (.noOp, status)
  | .sendInitialMetadata s, _, status, _ => some (.sendInitialMetadata s, status)
  | .sendMessage s, tag, status, mx =>
      let r := s.FinishOp tag status mx
      some (.sendMessage r.1, r.2)
  | .recvMessage s, tag, status, mx =>
      let r := CallOpRecvMessage.FinishOp Deserialize s tag status mx
      some (.recvMessage r.1, r.2)
  | .genericRecvMessage s, tag, status, mx =>
      let r := s.FinishOp tag status mx
      some (.genericRecvMessage r.1, r.2)
  | .clientSendClose s, _, status, _ => some (.clientSendClose s, status)
  | .serverSendStatus s, _, status, _ => some (.serverSendStatus s, status)
  | .recvInitialMetadata s, tag, status, mx =>
      match s.FinishOp tag status mx with
      | none => none
      | some r => some (.recvInitialMetadata r.1, r.2)
  | .clientRecvStatus s, tag, status, mx =>
      match s.FinishOp tag status mx with
      | none => none
      | some r => some (.clientRecvStatus r.1, r.2)

/-- Whether a slot is armed, i.e. the exact guard its AddOp and
FinishOp test: the flag or pointer set by the arming call. -/
def CallOp.isArmed {R : Type} : CallOp R → Bool
  | .noOp => false
  | .sendInitialMetadata s => s.send_
  | .sendMessage s => s.send_buf_.isSome
  | .recvMessage s => s.message_.isSome
  | .genericRecvMessage s => s.deserialize_.isSome
  | .clientSendClose s => s.send_
  | .serverSendStatus s => s.send_status_available_
  | .recvInitialMetadata s => s.recv_initial_metadata_.isSome
  | .clientRecvStatus s => s.recv_status_.isSome

/-- The list of native descriptors a slot contributes in FillOps. -/
def CallOp.contrib {R : Type} : CallOp R → List GrpcOp
  | .noOp => []
  | .sendInitialMetadata s =>
      if !s.send_ then []
      else [GrpcOp.sendInitialMetadataOp s.initial_metadata_count_ s.initial_metadata_]
  | .sendMessage s =>
      match s.send_buf_ with
      | none => []
      | some b => [GrpcOp.sendMessageOp b]
  | .recvMessage s =>
      match s.message_ with
      | none => []
      | some _ => [GrpcOp.recvMessageOp]
  | .genericRecvMessage s =>
      match s.deserialize_ with
      | none => []
      | some _ => [GrpcOp.recvMessageOp]
  | .clientSendClose s => if !s.send_ then [] else [GrpcOp.sendCloseFromClientOp]
  | .serverSendStatus s =>
      [GrpcOp.sendStatusFromServerOp s.trailing_metadata_count_ s.trailing_metadata_
        s.send_status_code_
        (if s.send_status_details_.isEmpty then none else some s.send_status_details_)]
  | .recvInitialMetadata s =>
      match s.recv_initial_metadata_ with
      | none => []
      | some _ => [GrpcOp.recvInitialMetadataOp]
  | .clientRecvStatus s =>
      match s.recv_status_ with
      | none => []
      | some _ => [GrpcOp.recvStatusOnClientOp]

/-- A CallOpSet batch: six trait slots in declaration order, the
maximum-message-size bound from CallOpSetInterface, and the completion
tag surfaced by FinalizeResult. -/
structure CallOpSet (R : Type) where
  op1 : CallOp R
  op2 : CallOp R
  op3 : CallOp R
  op4 : CallOp R
  op5 : CallOp R
  op6 : CallOp R
  max_message_size_ : Int
  return_tag_ : Tag

/-- Constructor: every template slot defaults to CallNoOp,
return_tag_(this), max_message_size_(0) from CallOpSetInterface. -/
def CallOpSet.init (R : Type) : CallOpSet R :=
  { op1 := .noOp, op2 := .noOp, op3 := .noOp, op4 := .noOp, op5 := .noOp,
    op6 := .noOp, max_message_size_ := 0, return_tag_ := Tag.selfTag }

/-- set_max_message_size. -/
def CallOpSet.set_max_message_size {R : Type} (m : Int) (S : CallOpSet R) :
    CallOpSet R :=
  { S with max_message_size_ := m }

/-- set_output_tag. -/
def CallOpSet.set_output_tag {R : Type} (t : Tag) (S : CallOpSet R) :
    CallOpSet R :=
  { S with return_tag_ := t }

/-- The six slots in declaration order. -/
def CallOpSet.slots {R : Type} (S : CallOpSet R) : List (CallOp R) :=
  [S.op1, S.op2, S.op3, S.op4, S.op5, S.op6]

/-- Number of armed slots of a batch. -/
def CallOpSet.armedCount {R : Type} (S : CallOpSet R) : Nat :=
  (S.slots.filter CallOp.isArmed).length

/-- FillOps, lines 351-358 of call.h: each slot AddOp in declaration
order Op1 through Op6. -/
def CallOpSet.FillOps {R : Type} (S : CallOpSet R) (acc : List GrpcOp × Nat) :
    List GrpcOp × Nat :=
  S.op6.AddOp (S.op5.AddOp (S.op4.AddOp (S.op3.AddOp (S.op2.AddOp (S.op1.AddOp acc)))))

/-- FinalizeResult, lines 360-369 of call.h: each slot FinishOp in
declaration order Op1 through Op6, threading the shared status flag;
afterwards the tag is overwritten with return_tag_ and true is
returned.  The result is (new batch state, tag out, status out,
return value), or none if some FinishOp hit a null write. -/
def CallOpSet.FinalizeResult {R : Type} (Deserialize : ByteBuffer → Int → Status × R)
    (S : CallOpSet R) (tag : Tag) (status : Bool) :
    Option (CallOpSet R × Tag × Bool × Bool) :=
  match S.op1.FinishOp Deserialize tag status S.max_message_size_ with
  | none => none
  | some r1 =>
    match S.op2.FinishOp Deserialize tag r1.2 S.max_message_size_ with
    | none => none
    | some r2 =>
      match S.op3.FinishOp Deserialize tag r2.2 S.max_message_size_ with
      | none => none
      | some r3 =>
        match S.op4.FinishOp Deserialize tag r3.2 S.max_message_size_ with
        | none => none
        | some r4 =>
          match S.op5.FinishOp Deserialize tag r4.2 S.max_message_size_ with
          | none => none
          | some r5 =>
            match S.op6.FinishOp Deserialize tag r5.2 S.max_message_size_ with
            | none => none
            | some r6 =>
                some ({ S with op1 := r1.1, op2 := r2.1, op3 := r3.1,
                               op4 := r4.1, op5 := r5.1, op6 := r6.1 },
                      S.return_tag_, r6.2, true)

/-- SneakyCallOpSet::FinalizeResult, lines 458-462 of call.h: run the
inherited FinalizeResult, then and the returned flag with false. -/
def SneakyCallOpSet.FinalizeResult {R : Type}
    (Deserialize : ByteBuffer → Int → Status × R) (S : CallOpSet R)
    (tag : Tag) (status : Bool) : Option (CallOpSet R × Tag × Bool × Bool) :=
  (CallOpSet.FinalizeResult Deserialize S tag status).map
    fun r => (r.1, r.2.1, r.2.2.1, r.2.2.2 && false)

/-- The native descriptors contributed by the six slots, concatenated
in declaration order Op1 through Op6. -/
def CallOpSet.contribList {R : Type} (S : CallOpSet R) : List GrpcOp :=
  S.op1.contrib ++ (S.op2.contrib ++ (S.op3.contrib ++
    (S.op4.contrib ++ (S.op5.contrib ++ S.op6.contrib))))

/-- Running FinishOp over a list of slots from head to tail, threading
the shared status flag. -/
def finishList {R : Type} (Deserialize : ByteBuffer → Int → Status × R) :
    List (CallOp R) → Tag → Bool → Int → Option (List (CallOp R) × Bool)
  | [], _, status, _ => some ([], status)
  | op :: rest, tag, status, mx =>
    match CallOp.FinishOp Deserialize op tag status mx with
    | none => none
    | some r =>
      match finishList Deserialize rest tag r.2 mx with
      | none => none
      | some rr => some (r.1 :: rr.1, rr.2)

/-- Reassembling a batch from the list of finalized slot states,
writing the return tag and the true return value of FinalizeResult. -/
def CallOpSet.rebuild {R : Type} (S : CallOpSet R)
    (r : List (CallOp R) × Bool) : Option (CallOpSet R × Tag × Bool × Bool) :=
  match r.1 with
  | [a, b, c, d, e, f] =>
      some ({ S with op1 := a, op2 := b, op3 := c, op4 := d, op5 := e, op6 := f },
            S.return_tag_, r.2, true)
  | _ => none

/-- The seven trait kinds (plus the CallNoOp filler and the two
receive-message variants counted separately). -/
inductive TraitKind where
  | noOpK
  | sendInitialMetadataK
  | sendMessageK
  | recvMessageK
  | genericRecvMessageK
  | clientSendCloseK
  | serverSendStatusK
  | recvInitialMetadataK
  | clientRecvStatusK
  deriving DecidableEq

/-- The state of a trait of the given kind that was constructed and
never armed.  An unarmed trait contributes nothing in AddOp, so the
transport never touches its scratch fields and its state at finalize
time is exactly its constructor state. -/
def unarmedInit (R : Type) : TraitKind → CallOp R
  | .noOpK => .noOp
  | .sendInitialMetadataK => .sendInitialMetadata CallOpSendInitialMetadata.init
  | .sendMessageK => .sendMessage CallOpSendMessage.init
  | .recvMessageK => .recvMessage (CallOpRecvMessage.init R)
  | .genericRecvMessageK => .genericRecvMessage CallOpGenericRecvMessage.init
  | .clientSendCloseK => .clientSendClose CallOpClientSendClose.init
  | .serverSendStatusK => .serverSendStatus CallOpServerSendStatus.init
  | .recvInitialMetadataK => .recvInitialMetadata CallOpRecvInitialMetadata.init
  | .clientRecvStatusK => .clientRecvStatus CallOpClientRecvStatus.init

/-- A batch whose fourth slot holds a ServerSendStatus trait that was
constructed but never armed; every other slot is CallNoOp. -/
def idleServerStatusSet : CallOpSet Nat :=
  { CallOpSet.init Nat with op4 := .serverSendStatus CallOpServerSendStatus.init }

/-- A message codec whose deserializer always succeeds, for concrete
instantiations. -/
def okDeserNat : ByteBuffer → Int → Status × Nat :=
  fun _ _ => (Status.mk StatusCode.OK "", 0)

/-- A message codec whose deserializer always fails with a parse
error, for concrete instantiations. -/
def parseFailDeser : ByteBuffer → Int → Status × Nat :=
  fun _ _ => (Status.mk StatusCode.INVALID_ARGUMENT "parse failure", 0)

/-- A captured type-erased decode closure that always fails with a
parse error, for concrete instantiations. -/
def parseFailDecode : ByteBuffer → Int → Status :=
  fun _ _ => Status.mk StatusCode.INVALID_ARGUMENT "parse failure"

/-- Writing one slot of a batch while leaving every other field
alone: the effect an arming call has on the batch state (each arming
method belongs to exactly one WrapAndDerive base). -/
def CallOpSet.withSlot {R : Type} (i : Fin 6) (x : CallOp R) (S : CallOpSet R) :
    CallOpSet R :=
  match i with
  | ⟨0, _⟩ => { S with op1 := x }
  | ⟨1, _⟩ => { S with op2 := x }
  | ⟨2, _⟩ => { S with op3 := x }
  | ⟨3, _⟩ => { S with op4 := x }
  | ⟨4, _⟩ => { S with op5 := x }
  | ⟨5, _⟩ => { S with op6 := x }

/-- Each slot AddOp appends exactly its contribution list to the
native array and bumps the counter by its length. -/
theorem CallOp.AddOp_eq_contrib {R : Type} (op : CallOp R) (acc : List GrpcOp × Nat) :
    op.AddOp acc = (acc.1 ++ op.contrib, acc.2 + op.contrib.length) := by
  cases op with
  | noOp => simp [AddOp, contrib]
  | sendInitialMetadata s =>
      by_cases h : s.send_ <;>
        simp [AddOp, contrib, CallOpSendInitialMetadata.AddOp, h]
  | sendMessage s =>
      cases h : s.send_buf_ <;>
        simp [AddOp, contrib, CallOpSendMessage.AddOp, h]
  | recvMessage s =>
      cases h : s.message_ <;>
        simp [AddOp, contrib, CallOpRecvMessage.AddOp, h]
  | genericRecvMessage s =>
      cases h : s.deserialize_ <;>
        simp [AddOp, contrib, CallOpGenericRecvMessage.AddOp, h]
  | clientSendClose s =>
      by_cases h : s.send_ <;>
        simp [AddOp, contrib, CallOpClientSendClose.AddOp, h]
  | serverSendStatus s =>
      simp [AddOp, contrib, CallOpServerSendStatus.AddOp]
  | recvInitialMetadata s =>
      cases h : s.recv_initial_metadata_ <;>
        simp [AddOp, contrib, CallOpRecvInitialMetadata.AddOp, h]
  | clientRecvStatus s =>
      cases h : s.recv_status_ <;>
        simp [AddOp, contrib, CallOpClientRecvStatus.AddOp, h]

/-- FillOps builds the native array as the concatenation of the six
slot contributions in declaration order, wherever it starts writing. -/
theorem CallOpSet.FillOps_eq_contribList {R : Type} (S : CallOpSet R)
    (acc : List GrpcOp × Nat) :
    S.FillOps acc = (acc.1 ++ S.contribList, acc.2 + S.contribList.length) := by
  simp [CallOpSet.FillOps, CallOp.AddOp_eq_contrib, CallOpSet.contribList,
        List.append_assoc, Nat.add_assoc]

/-- A slot FinishOp entered with the shared status flag false leaves
it false, whichever trait occupies the slot. -/
theorem FinishOp_preserves_false {R : Type} (D : ByteBuffer → Int → Status × R)
    (op : CallOp R) (tag : Tag) (mx : Int) (r : CallOp R × Bool)
    (h : CallOp.FinishOp D op tag false mx = some r) : r.2 = false := by
  cases op with
  | noOp =>
      simp only [CallOp.FinishOp, Option.some.injEq] at h
      subst h; rfl
  | sendInitialMetadata s =>
      simp only [CallOp.FinishOp, Option.some.injEq] at h
      subst h; rfl
  | sendMessage s =>
      simp only [CallOp.FinishOp, CallOpSendMessage.FinishOp, Option.some.injEq] at h
      subst h; rfl
  | recvMessage s =>
      cases hm : s.message_ with
      | none =>
          simp only [CallOp.FinishOp, CallOpRecvMessage.FinishOp, hm,
            Option.some.injEq] at h
          subst h; rfl
      | some d =>
          cases hb : s.recv_buf_ with
          | none =>
              simp only [CallOp.FinishOp, CallOpRecvMessage.FinishOp, hm, hb,
                Option.some.injEq] at h
              subst h; rfl
          | some b =>
              simp only [CallOp.FinishOp, CallOpRecvMessage.FinishOp, hm, hb,
                Bool.false_eq_true, if_false, Option.some.injEq] at h
              subst h; rfl
  | genericRecvMessage s =>
      cases hm : s.deserialize_ with
      | none =>
          simp only [CallOp.FinishOp, CallOpGenericRecvMessage.FinishOp, hm,
            Option.some.injEq] at h
          subst h; rfl
      | some f =>
          cases hb : s.recv_buf_ with
          | none =>
              simp only [CallOp.FinishOp, CallOpGenericRecvMessage.FinishOp, hm, hb,
                Option.some.injEq] at h
              subst h; rfl
          | some b =>
              simp only [CallOp.FinishOp, CallOpGenericRecvMessage.FinishOp, hm, hb,
                Bool.false_eq_true, if_false, Option.some.injEq] at h
              subst h; rfl
  | clientSendClose s =>
      simp only [CallOp.FinishOp, Option.some.injEq] at h
      subst h; rfl
  | serverSendStatus s =>
      simp only [CallOp.FinishOp, Option.some.injEq] at h
      subst h; rfl
  | recvInitialMetadata s =>
      simp only [CallOp.FinishOp] at h
      cases hg : FillMetadataMap s.recv_initial_metadata_arr_ s.recv_initial_metadata_ with
      | none => simp [CallOpRecvInitialMetadata.FinishOp, hg] at h
      | some g =>
          simp only [CallOpRecvInitialMetadata.FinishOp, hg, Option.some.injEq] at h
          subst h; rfl
  | clientRecvStatus s =>
      simp only [CallOp.FinishOp] at h
      cases hg : FillMetadataMap s.recv_trailing_metadata_arr_ s.recv_trailing_metadata_ with
      | none => simp [CallOpClientRecvStatus.FinishOp, hg] at h
      | some g =>
          cases hs : s.recv_status_ with
          | none => simp [CallOpClientRecvStatus.FinishOp, hg, hs] at h
          | some st0 =>
              simp only [CallOpClientRecvStatus.FinishOp, hg, hs, Option.some.injEq] at h
              subst h; rfl

/-- FinalizeResult entered with the shared status flag false reports a
false status: a failure established earlier persists through all six
slots. -/
theorem CallOpSet.finalize_preserves_false {R : Type}
    (D : ByteBuffer → Int → Status × R) (S : CallOpSet R) (tag : Tag)
    (r : CallOpSet R × Tag × Bool × Bool)
    (h : CallOpSet.FinalizeResult D S tag false = some r) : r.2.2.1 = false := by
  unfold CallOpSet.FinalizeResult at h
  cases h1 : S.op1.FinishOp D tag false S.max_message_size_ with
  | none => simp only [h1] at h; exact Option.noConfusion h
  | some r1 =>
      simp only [h1] at h
      have e1 := FinishOp_preserves_false D S.op1 tag S.max_message_size_ r1 h1
      rw [e1] at h
      cases h2 : S.op2.FinishOp D tag false S.max_message_size_ with
      | none => simp only [h2] at h; exact Option.noConfusion h
      | some r2 =>
          simp only [h2] at h
          have e2 := FinishOp_preserves_false D S.op2 tag S.max_message_size_ r2 h2
          rw [e2] at h
          cases h3 : S.op3.FinishOp D tag false S.max_message_size_ with
          | none => simp only [h3] at h; exact Option.noConfusion h
          | some r3 =>
              simp only [h3] at h
              have e3 := FinishOp_preserves_false D S.op3 tag S.max_message_size_ r3 h3
              rw [e3] at h
              cases h4 : S.op4.FinishOp D tag false S.max_message_size_ with
              | none => simp only [h4] at h; exact Option.noConfusion h
              | some r4 =>
                  simp only [h4] at h
                  have e4 := FinishOp_preserves_false D S.op4 tag S.max_message_size_ r4 h4
                  rw [e4] at h
                  cases h5 : S.op5.FinishOp D tag false S.max_message_size_ with
                  | none => simp only [h5] at h; exact Option.noConfusion h
                  | some r5 =>
                      simp only [h5] at h
                      have e5 := FinishOp_preserves_false D S.op5 tag S.max_message_size_ r5 h5
                      rw [e5] at h
                      cases h6 : S.op6.FinishOp D tag false S.max_message_size_ with
                      | none => simp only [h6] at h; exact Option.noConfusion h
                      | some r6 =>
                          simp only [h6, Option.some.injEq] at h
                          have e6 := FinishOp_preserves_false D S.op6 tag S.max_message_size_ r6 h6
                          subst h
                          exact e6

/-- FinalizeResult is exactly the head-to-tail finishList traversal of
the slots in declaration order, rebuilt into the batch together with
the return tag and the true return value. -/
theorem CallOpSet.finalize_eq_finishList {R : Type}
    (D : ByteBuffer → Int → Status × R) (S : CallOpSet R) (tag : Tag) (st : Bool) :
    CallOpSet.FinalizeResult D S tag st
      = (finishList D S.slots tag st S.max_message_size_).bind S.rebuild := by
  unfold CallOpSet.FinalizeResult CallOpSet.slots
  cases h1 : S.op1.FinishOp D tag st S.max_message_size_ with
  | none => simp [finishList, h1]
  | some r1 =>
      cases h2 : S.op2.FinishOp D tag r1.2 S.max_message_size_ with
      | none => simp [finishList, h1, h2]
      | some r2 =>
          cases h3 : S.op3.FinishOp D tag r2.2 S.max_message_size_ with
          | none => simp [finishList, h1, h2, h3]
          | some r3 =>
              cases h4 : S.op4.FinishOp D tag r3.2 S.max_message_size_ with
              | none => simp [finishList, h1, h2, h3, h4]
              | some r4 =>
                  cases h5 : S.op5.FinishOp D tag r4.2 S.max_message_size_ with
                  | none => simp [finishList, h1, h2, h3, h4, h5]
                  | some r5 =>
                      cases h6 : S.op6.FinishOp D tag r5.2 S.max_message_size_ with
                      | none => simp [finishList, h1, h2, h3, h4, h5, h6]
                      | some r6 =>
                          simp [finishList, h1, h2, h3, h4, h5, h6, CallOpSet.rebuild]

/-- C1: the claimed invariant "the number of native operations
appended by FillOps equals the number of armed traits, and an idle
trait appends nothing" fails on the code: CallOpServerSendStatus::AddOp
appends its descriptor without consulting send_status_available_, so a
batch whose only non-CallNoOp slot is a never-armed ServerSendStatus
trait gets one native op from FillOps although zero traits are armed. -/
theorem serverSendStatus_idle_still_appends :
    (idleServerStatusSet.FillOps ([], 0)).2 = 1 ∧
    idleServerStatusSet.armedCount = 0 ∧
    idleServerStatusSet.FillOps ([], 0)
      = ([GrpcOp.sendStatusFromServerOp 0 [] StatusCode.OK none], 1) :=
  ⟨rfl, rfl, rfl⟩

/-- C2: for an armed receive-message trait finalized with the success
flag true, a delivered buffer and a failing deserializer, the shared
success flag is downgraded to false but got_message is left TRUE (it
is assigned before the deserialization result is known, in both the
typed and the type-erased variant), contradicting the claimed
"gotMessage flag is false". -/
theorem recvMessage_parse_failure_keeps_got_message :
    (CallOp.FinishOp parseFailDeser
        (.recvMessage { got_message := false, message_ := some 7, recv_buf_ := some [1, 2] })
        Tag.selfTag true 100
      = some (.recvMessage { got_message := true, message_ := some 0, recv_buf_ := some [1, 2] },
              false)) ∧
    (CallOp.FinishOp parseFailDeser
        (.genericRecvMessage
          { got_message := false, deserialize_ := some parseFailDecode, recv_buf_ := some [1, 2] })
        Tag.selfTag true 100
      = some (.genericRecvMessage
          { got_message := true, deserialize_ := some parseFailDecode, recv_buf_ := some [1, 2] },
              false)) :=
  ⟨rfl, rfl⟩

/-- C3 counterexample: the FinishOp of a constructed, never-armed
ClientRecvStatus trait does not leave the state unchanged: it
unconditionally writes through the null recv_status_ pointer, a null
dereference (none), so the claim fails for this trait kind. -/
theorem clientRecvStatus_unarmed_finish_not_noop :
    CallOp.FinishOp okDeserNat
        (.clientRecvStatus CallOpClientRecvStatus.init) Tag.selfTag true 0 = none ∧
    CallOp.FinishOp okDeserNat
        (.clientRecvStatus CallOpClientRecvStatus.init) Tag.selfTag true 0
      ≠ some (.clientRecvStatus CallOpClientRecvStatus.init, true) :=
  ⟨rfl, fun h => Option.noConfusion h⟩

/-- C3 amended: for every trait kind except ClientRecvStatus, the
FinishOp of a trait that was never armed leaves the shared success
flag, every caller-visible destination and its own state unchanged
(a never-armed trait contributes no op in AddOp, so its state at
finalize time is its constructor state). -/
theorem unarmed_finish_is_noop_except_clientRecvStatus {R : Type}
    (D : ByteBuffer → Int → Status × R) (k : TraitKind)
    (hk : k ≠ TraitKind.clientRecvStatusK) (tag : Tag) (st : Bool) (mx : Int) :
    CallOp.FinishOp D (unarmedInit R k) tag st mx = some (unarmedInit R k, st) := by
  cases k <;> first | (exact absurd rfl hk) | rfl

/-- Witness for the amended C3 at the unarmed SendMessage kind. -/
theorem unarmed_finish_is_noop_witness :
    (TraitKind.sendMessageK ≠ TraitKind.clientRecvStatusK) ∧
    CallOp.FinishOp okDeserNat (unarmedInit Nat TraitKind.sendMessageK) Tag.selfTag true 7
      = some (unarmedInit Nat TraitKind.sendMessageK, true) :=
  ⟨by decide,
   unarmed_finish_is_noop_except_clientRecvStatus okDeserNat TraitKind.sendMessageK
     (by decide) Tag.selfTag true 7⟩

/-- C4: SneakyCallOpSet::FinalizeResult equals the inherited
FinalizeResult with the returned flag replaced by false: whatever is
armed and whatever the incoming success flag, every inherited per-slot
finalize side effect (new batch state, tag written, status flag) is
identical and the return value is false. -/
theorem sneaky_finalize_returns_false_with_side_effects {R : Type}
    (D : ByteBuffer → Int → Status × R) (S : CallOpSet R) (tag : Tag) (status : Bool) :
    SneakyCallOpSet.FinalizeResult D S tag status
      = (CallOpSet.FinalizeResult D S tag status).map
          fun r => (r.1, r.2.1, r.2.2.1, false) := by
  unfold SneakyCallOpSet.FinalizeResult
  cases CallOpSet.FinalizeResult D S tag status <;> simp

/-- C5: a slot FinishOp may downgrade the shared success flag but
never upgrades it: entered false it exits false, for every trait and
every state, and consequently FinalizeResult entered with a false flag
reports a false flag after all six slots. -/
theorem finish_never_upgrades_failure :
    (∀ (R : Type) (D : ByteBuffer → Int → Status × R) (op : CallOp R) (tag : Tag)
        (mx : Int) (r : CallOp R × Bool),
        CallOp.FinishOp D op tag false mx = some r → r.2 = false) ∧
    (∀ (R : Type) (D : ByteBuffer → Int → Status × R) (S : CallOpSet R) (tag : Tag)
        (r : CallOpSet R × Tag × Bool × Bool),
        CallOpSet.FinalizeResult D S tag false = some r → r.2.2.1 = false) :=
  ⟨fun _R D op tag mx r h => FinishOp_preserves_false D op tag mx r h,
   fun _R D S tag r h => CallOpSet.finalize_preserves_false D S tag r h⟩

/-- Witness for C5 at a concrete armed receive trait entered with a
false flag. -/
theorem finish_never_upgrades_failure_witness :
    (CallOp.FinishOp okDeserNat
        (.recvMessage { got_message := true, message_ := some 3, recv_buf_ := some [9] })
        Tag.selfTag false 8
      = some (.recvMessage { got_message := false, message_ := some 3, recv_buf_ := none },
              false)) ∧
    ((CallOp.recvMessage { got_message := false, message_ := some 3, recv_buf_ := none } : CallOp Nat),
        false).2 = false :=
  ⟨rfl,
   finish_never_upgrades_failure.1 Nat okDeserNat
     (.recvMessage { got_message := true, message_ := some 3, recv_buf_ := some [9] })
     Tag.selfTag 8
     (.recvMessage { got_message := false, message_ := some 3, recv_buf_ := none }, false) rfl⟩

/-- C6: the FinishOp of an armed ClientRecvStatus trait executes for
every value of the transport success flag and always structurally
succeeds: it moves the native trailing-metadata array into the caller
destination, resets the scratch array, and writes into the caller
Status destination a Status built from the native code and the native
detail string, the empty string when the detail pointer is null; the
shared flag is not touched. -/
theorem clientRecvStatus_finish_unconditional {R : Type}
    (D : ByteBuffer → Int → Status × R) (s : CallOpClientRecvStatus)
    (tm : Metadata) (st0 : Status)
    (hm : s.recv_trailing_metadata_ = some tm) (hs : s.recv_status_ = some st0)
    (tag : Tag) (status : Bool) (mx : Int) :
    CallOp.FinishOp D (.clientRecvStatus s) tag status mx
      = some (.clientRecvStatus
          { s with recv_trailing_metadata_ := some (tm ++ s.recv_trailing_metadata_arr_),
                   recv_trailing_metadata_arr_ := [],
                   recv_status_ := some (Status.mk s.status_code_ (s.status_details_.getD "")) },
          status) := by
  simp [CallOp.FinishOp, CallOpClientRecvStatus.FinishOp, FillMetadataMap, hm, hs]

/-- Witness for C6 at a concrete armed ClientRecvStatus trait with a
false transport flag and a null detail pointer. -/
theorem clientRecvStatus_finish_unconditional_witness :
    (({ recv_trailing_metadata_ := some [("k", "v")], recv_status_ := some (Status.mk StatusCode.OK ""),
        recv_trailing_metadata_arr_ := [("t", "u")], status_code_ := StatusCode.INTERNAL,
        status_details_ := none, status_details_capacity_ := 0 } :
        CallOpClientRecvStatus).recv_trailing_metadata_ = some [("k", "v")]) ∧
    CallOp.FinishOp okDeserNat
        (.clientRecvStatus
          { recv_trailing_metadata_ := some [("k", "v")], recv_status_ := some (Status.mk StatusCode.OK ""),
            recv_trailing_metadata_arr_ := [("t", "u")], status_code_ := StatusCode.INTERNAL,
            status_details_ := none, status_details_capacity_ := 0 })
        Tag.selfTag false 0
      = some (.clientRecvStatus
          { recv_trailing_metadata_ := some [("k", "v"), ("t", "u")],
            recv_status_ := some (Status.mk StatusCode.INTERNAL ""),
            recv_trailing_metadata_arr_ := [], status_code_ := StatusCode.INTERNAL,
            status_details_ := none, status_details_capacity_ := 0 },
          false) :=
  ⟨rfl,
   clientRecvStatus_finish_unconditional okDeserNat
     { recv_trailing_metadata_ := some [("k", "v")], recv_status_ := some (Status.mk StatusCode.OK ""),
       recv_trailing_metadata_arr_ := [("t", "u")], status_code_ := StatusCode.INTERNAL,
       status_details_ := none, status_details_capacity_ := 0 }
     [("k", "v")] (Status.mk StatusCode.OK "") rfl rfl Tag.selfTag false 0⟩

/-- C7: FillOps appends the slot contributions in the fixed
declaration order Op1 through Op6 wherever it starts writing;
FinalizeResult runs FinishOp over the slots in exactly that same
head-to-tail order; and arming calls on distinct slots commute, so the
batch state and hence both orders are independent of the order in
which the traits were armed. -/
theorem fixed_slot_order_fill_and_finalize :
    (∀ (R : Type) (S : CallOpSet R) (acc : List GrpcOp × Nat),
        S.FillOps acc = (acc.1 ++ S.contribList, acc.2 + S.contribList.length)) ∧
    (∀ (R : Type) (D : ByteBuffer → Int → Status × R) (S : CallOpSet R) (tag : Tag) (st : Bool),
        CallOpSet.FinalizeResult D S tag st
          = (finishList D S.slots tag st S.max_message_size_).bind S.rebuild) ∧
    (∀ (R : Type) (S : CallOpSet R) (i j : Fin 6) (x y : CallOp R), i ≠ j →
        CallOpSet.withSlot i x (CallOpSet.withSlot j y S)
          = CallOpSet.withSlot j y (CallOpSet.withSlot i x S)) := by
  refine ⟨fun R S acc => CallOpSet.FillOps_eq_contribList S acc,
          fun R D S tag st => CallOpSet.finalize_eq_finishList D S tag st,
          fun R S i j x y hij => ?_⟩
  fin_cases i <;> fin_cases j <;> first | (exact absurd rfl hij) | rfl

/-- Witness for C7 at concrete distinct slots. -/
theorem fixed_slot_order_witness :
    ((0 : Fin 6) ≠ (3 : Fin 6)) ∧
    CallOpSet.withSlot 0 (.clientSendClose { send_ := true })
        (CallOpSet.withSlot 3 CallOp.noOp (idleServerStatusSet))
      = CallOpSet.withSlot 3 CallOp.noOp
          (CallOpSet.withSlot 0 (.clientSendClose { send_ := true }) idleServerStatusSet) :=
  ⟨by decide,
   fixed_slot_order_fill_and_finalize.2.2 Nat idleServerStatusSet 0 3
     (.clientSendClose { send_ := true }) CallOp.noOp (by decide)⟩

/-- C8: for an armed receive-message trait (typed or type-erased)
finalized with the transport flag false and a non-null delivered
buffer, no deserialization is attempted (the result does not depend on
the codec), the receive buffer is released, got_message is false, the
shared flag remains false and the destination is left unmodified. -/
theorem recv_failure_releases_buffer :
    (∀ (R : Type) (D : ByteBuffer → Int → Status × R) (s : CallOpRecvMessage R)
        (d : R) (b : ByteBuffer) (tag : Tag) (mx : Int),
        s.message_ = some d → s.recv_buf_ = some b →
        CallOp.FinishOp D (.recvMessage s) tag false mx
          = some (.recvMessage { s with got_message := false, recv_buf_ := none }, false)) ∧
    (∀ (R : Type) (D : ByteBuffer → Int → Status × R) (g : CallOpGenericRecvMessage)
        (f : ByteBuffer → Int → Status) (b : ByteBuffer) (tag : Tag) (mx : Int),
        g.deserialize_ = some f → g.recv_buf_ = some b →
        CallOp.FinishOp D (.genericRecvMessage g) tag false mx
          = some (.genericRecvMessage { g with got_message := false, recv_buf_ := none }, false)) := by
  constructor
  · intro R D s d b tag mx hm hb
    simp [CallOp.FinishOp, CallOpRecvMessage.FinishOp, hm, hb]
  · intro R D g f b tag mx hm hb
    simp [CallOp.FinishOp, CallOpGenericRecvMessage.FinishOp, hm, hb]

/-- Witness for C8 at a concrete armed typed receive trait. -/
theorem recv_failure_releases_buffer_witness :
    (({ got_message := true, message_ := some 5, recv_buf_ := some [9] } :
        CallOpRecvMessage Nat).message_ = some 5) ∧
    CallOp.FinishOp okDeserNat
        (.recvMessage { got_message := true, message_ := some 5, recv_buf_ := some [9] })
        Tag.selfTag false 4
      = some (.recvMessage { got_message := false, message_ := some 5, recv_buf_ := none }, false) :=
  ⟨rfl,
   recv_failure_releases_buffer.1 Nat okDeserNat
     { got_message := true, message_ := some 5, recv_buf_ := some [9] }
     5 [9] Tag.selfTag 4 rfl rfl⟩

/-- C9: for an armed receive-message trait (typed or type-erased)
finalized with the transport flag true but no delivered buffer,
got_message is false afterwards and the shared success flag is forced
to false. -/
theorem recv_success_without_buffer_fails :
    (∀ (R : Type) (D : ByteBuffer → Int → Status × R) (s : CallOpRecvMessage R)
        (d : R) (tag : Tag) (mx : Int),
        s.message_ = some d → s.recv_buf_ = none →
        CallOp.FinishOp D (.recvMessage s) tag true mx
          = some (.recvMessage { s with got_message := false }, false)) ∧
    (∀ (R : Type) (D : ByteBuffer → Int → Status × R) (g : CallOpGenericRecvMessage)
        (f : ByteBuffer → Int → Status) (tag : Tag) (mx : Int),
        g.deserialize_ = some f → g.recv_buf_ = none →
        CallOp.FinishOp D (.genericRecvMessage g) tag true mx
          = some (.genericRecvMessage { g with got_message := false }, false)) := by
  constructor
  · intro R D s d tag mx hm hb
    simp [CallOp.FinishOp, CallOpRecvMessage.FinishOp, hm, hb]
  · intro R D g f tag mx hm hb
    simp [CallOp.FinishOp, CallOpGenericRecvMessage.FinishOp, hm, hb]

/-- Witness for C9 at a concrete armed typed receive trait. -/
theorem recv_success_without_buffer_fails_witness :
    (({ got_message := false, message_ := some 5, recv_buf_ := none } :
        CallOpRecvMessage Nat).message_ = some 5) ∧
    CallOp.FinishOp okDeserNat
        (.recvMessage { got_message := false, message_ := some 5, recv_buf_ := none })
        Tag.selfTag true 4
      = some (.recvMessage { got_message := false, message_ := some 5, recv_buf_ := none }, false) :=
  ⟨rfl,
   recv_success_without_buffer_fails.1 Nat okDeserNat
     { got_message := false, message_ := some 5, recv_buf_ := none }
     5 Tag.selfTag 4 rfl rfl⟩

/-- C10: arming the RecvInitialMetadata trait on a ClientContext sets
the initial_metadata_received_ flag of the context to true at arm time
itself (the arming call alone produces the flag, before any FillOps or
FinalizeResult), and stores the destination pointer in the trait. -/
theorem recv_initial_metadata_arm_sets_flag (context : ClientContext)
    (s : CallOpRecvInitialMetadata) :
    ((CallOpRecvInitialMetadata.RecvInitialMetadata context s).1.initial_metadata_received_
      = true) ∧
    ((CallOpRecvInitialMetadata.RecvInitialMetadata context s).2.recv_initial_metadata_
      = some context.recv_initial_metadata_) :=
  ⟨rfl, rfl⟩

end Grpc
